import Mathlib

/-!
Verification of the TP compliance dashboard (`src/tp_dashboard.py`).

The dashboard is a single module-level script: it loads a table (CSV with a
JSON-lines fallback), applies a sequence of row filters (country selection,
free-text search, categorical yes/no selections), projects visible columns
for display, computes summary metrics and offers a CSV download.

This file gives a shallow embedding of that pipeline:

* a pandas `DataFrame` becomes `Table` (ordered column names plus rows of
  optional strings; `none` models a missing value / NaN — every column of
  this dataset is textual, i.e. pandas object dtype);
* the module-level filtering statements (lines 122-132) become pure
  functions threaded in the same order;
* `pandas.Series.str.contains` is embedded by a small regular-expression
  matcher (`parsePat` / `searchPat`) covering literal characters and the
  `.` wildcard, which is the fragment exercised by the properties below;
  patterns using other regex constructs are outside the model and are not
  used in any theorem;
* Python `str.lower` is embedded for the ASCII range by `lowerChar`;
* the loader's external calls are embedded by explicit inputs: the CSV
  source is `none` (file absent), `some none` (present, parse raises) or
  `some (some t)` (parsed table); the JSON-lines file is a list of lines,
  each either `none` (a line `json.loads` rejects) or `some record`.
-/

namespace TPDash

/-- A cell of the table: pandas object value, `none` models NaN. -/
abbrev Cell := Option String

/-- A pandas DataFrame: ordered column names and rows of cells in column
order. -/
structure Table where
  cols : List String
  rows : List (List Cell)
  deriving Repr, DecidableEq

/-- Cell of row `r` (laid out along `cols`) at column `name`; `none` when the
column is absent.  (In the script every column access is either guarded by a
`col in df.columns` check or made on a column the dataset always has.) -/
def lookupCell : List String → List Cell → String → Cell
  | [], _, _ => none
  | _, [], _ => none
  | c :: cs, v :: vs, name => if c = name then v else lookupCell cs vs name

/-- ASCII model of Python `str.lower` on one character. -/
def lowerChar : Char → Char
  | 'A' => 'a' | 'B' => 'b' | 'C' => 'c' | 'D' => 'd' | 'E' => 'e'
  | 'F' => 'f' | 'G' => 'g' | 'H' => 'h' | 'I' => 'i' | 'J' => 'j'
  | 'K' => 'k' | 'L' => 'l' | 'M' => 'm' | 'N' => 'n' | 'O' => 'o'
  | 'P' => 'p' | 'Q' => 'q' | 'R' => 'r' | 'S' => 's' | 'T' => 't'
  | 'U' => 'u' | 'V' => 'v' | 'W' => 'w' | 'X' => 'x' | 'Y' => 'y'
  | 'Z' => 'z'
  | c => c

/-- ASCII model of Python `str.lower`. -/
def lowerStr (s : String) : String := String.mk (s.data.map lowerChar)

/-- Characters that carry meaning in a Python regular expression.  `{` and
`}` are written numerically (codes 123 and 125). -/
def metaChars : List Char :=
  ['.', '*', '+', '?', '\\', '[', ']', '(', ')', '|', '^', '$',
   Char.ofNat 123, Char.ofNat 125]

/-- A character with no regex meaning (matched literally). -/
def plainChar (c : Char) : Bool := !(metaChars.contains c)

/-- A string all of whose characters are regex-free. -/
abbrev plainString (s : String) : Prop := ∀ ch ∈ s.data, plainChar ch = true

/-- Token of a parsed pattern: a literal character or the `.` wildcard. -/
inductive RTok
  | lit (c : Char)
  | dot
  deriving Repr, DecidableEq

/-- Parse a pattern into tokens.  Literal characters and `.` are supported;
any other metacharacter makes the pattern fall outside the embedded
fragment (`none`). -/
def parsePat : List Char → Option (List RTok)
  | [] => some []
  | c :: cs =>
    if c = '.' then (parsePat cs).map (fun ts => RTok.dot :: ts)
    else if metaChars.contains c then none
    else (parsePat cs).map (fun ts => RTok.lit c :: ts)

/-- One token against one character. -/
def tokM : RTok → Char → Bool
  | RTok.dot, _ => true
  | RTok.lit a, c => a = c

/-- Match the whole token list at the head of the text. -/
def matchHere : List RTok → List Char → Bool
  | [], _ => true
  | _ :: _, [] => false
  | t :: ts, c :: cs => tokM t c && matchHere ts cs

/-- `re.search`: try the pattern at every position. -/
def searchPat (p : List RTok) : List Char → Bool
  | [] => matchHere p []
  | c :: cs => matchHere p (c :: cs) || searchPat p cs

/-- Embedding of `Series.str.contains(pat)` (default `regex=True`) on one
string: regex search of `pat` inside `s`.  Patterns outside the supported
fragment yield `false` and are not used in any theorem. -/
def regexSearch (pat s : String) : Bool :=
  match parsePat pat.data with
  | some p => searchPat p s.data
  | none => false

/-- `needle` begins `hay`. -/
def startsWithL : List Char → List Char → Bool
  | [], _ => true
  | _ :: _, [] => false
  | n :: ns, h :: hs => (n = h) && startsWithL ns hs

/-- `needle` occurs contiguously inside `hay` (plain substring test). -/
def isSubListOf (needle : List Char) : List Char → Bool
  | [] => needle.isEmpty
  | h :: hs => startsWithL needle (h :: hs) || isSubListOf needle hs

/-- `fillna('')` on one cell. -/
def cellText (c : Cell) : String := c.getD ""

/-- `Series.isin(ks)` on one cell: NaN is never a member. -/
def cellIn (c : Cell) (ks : List String) : Bool :=
  match c with
  | some v => ks.contains v
  | none => false

/-- The filter criteria rebuilt from the sidebar on every interaction:
country multiselect, free-text term, the active yes/no (column, choices)
pairs and the visible-column multiselect. -/
structure FilterCriteria where
  countries : List String
  zoekterm : String
  actieveYn : List (String × List String)
  zichtbareKolommen : List String

/-- Lines 123-124: `if selectie_landen: gefilterd =
gefilterd[gefilterd['Country'].isin(selectie_landen)]` — applied only when
the selection list is non-empty (an empty Python list is falsy). -/
def countryFilter (t : Table) (sel : List String) : Table :=
  if sel.isEmpty then t
  else { t with rows := t.rows.filter (fun r => cellIn (lookupCell t.cols r "Country") sel) }

/-- Lines 125-129: lower-case the term, then keep rows where some object
column, lower-cased with NaN as `''`, `str.contains` the term.  All columns
of this dataset are object columns, so the mask ranges over every cell. -/
def textFilter (t : Table) (zoekterm : String) : Table :=
  if zoekterm = "" then t
  else { t with rows := t.rows.filter (fun r => r.any (fun cell => regexSearch (lowerStr zoekterm) (lowerStr (cellText cell)))) }

/-- Lines 130-132, one step: `if keuzes: gefilterd =
gefilterd[gefilterd[col].isin(keuzes)]`. -/
def ynFilterStep (t : Table) (col : String) (keuzes : List String) : Table :=
  if keuzes.isEmpty then t
  else { t with rows := t.rows.filter (fun r => cellIn (lookupCell t.cols r col) keuzes) }

/-- Lines 130-132: the loop over `actieve_yn`. -/
def ynFilter (t : Table) (actieve : List (String × List String)) : Table :=
  actieve.foldl (fun acc p => ynFilterStep acc p.1 p.2) t

/-- The whole filtering block, lines 122-132, as computed into `gefilterd`. -/
def applyFilters (t : Table) (c : FilterCriteria) : Table :=
  ynFilter (textFilter (countryFilter t c.countries) c.zoekterm) c.actieveYn

/-- Values of the two module-level variables after the filtering block. -/
structure ModuleState where
  df : Table
  gefilterd : Table

/-- Lines 122-132 as a state transformation: the block starts from
`df.copy()` and assigns only `gefilterd`; `df` is never reassigned. -/
def runFilterBlock (df : Table) (c : FilterCriteria) : ModuleState :=
  { df := df, gefilterd := applyFilters df c }

/-- Line 174: `display_df = gefilterd[zichtbare_kolommen] if
zichtbare_kolommen else gefilterd`. -/
def displayTable (t : Table) (zichtbaar : List String) : Table :=
  if zichtbaar.isEmpty then t
  else { cols := zichtbaar, rows := t.rows.map (fun r => zichtbaar.map (fun col => lookupCell t.cols r col)) }

/-- Row-level form of the free-text mask (blank term passes every row). -/
def rowTextOk (zoekterm : String) (r : List Cell) : Bool :=
  if zoekterm = "" then true
  else r.any (fun cell => regexSearch (lowerStr zoekterm) (lowerStr (cellText cell)))

/-- Row-level form of the yes/no filters: conjunction over the configured
pairs, an empty choice list contributing `true`. -/
def rowYnOk (cols : List String) (yn : List (String × List String)) (r : List Cell) : Bool :=
  yn.all (fun p => p.2.isEmpty || cellIn (lookupCell cols r p.1) p.2)

/-- CSV quoting of one field value, pandas `QUOTE_MINIMAL`. -/
def escQuotes (s : String) : String :=
  String.mk (s.data.foldr (fun ch acc => if ch = '\"' then '\"' :: '\"' :: acc else ch :: acc) [])

/-- Whether a field needs quoting under `QUOTE_MINIMAL`. -/
def needsQuote (s : String) : Bool :=
  s.data.any (fun ch => ch = ',' || ch = '\"' || ch = '\n' || ch = '\r')

/-- Render one string field. -/
def csvCell (s : String) : String :=
  if needsQuote s then "\"" ++ escQuotes s ++ "\"" else s

/-- Render one cell; NaN renders as the empty field. -/
def csvField (c : Cell) : String :=
  match c with
  | none => ""
  | some s => csvCell s

/-- `DataFrame.to_csv(index=False)`: header line then one line per row,
each newline-terminated. -/
def to_csv (t : Table) : String :=
  String.intercalate "," (t.cols.map csvCell) ++ "\n"
    ++ String.join (t.rows.map (fun r => String.intercalate "," (r.map csvField) ++ "\n"))

/-- The UTF-8 byte-order mark that `encode('utf-8-sig')` prepends, at the
character level. -/
def bom : String := "\uFEFF"

/-- The fixed download filename of line 185. -/
def download_filename : String := "tp_core_selection.csv"

/-- Lines 182-186: the download artifact `(file name, payload)`.  The
payload is built from `gefilterd`, the filtered table, before the
`display_df` column projection. -/
def dataTabExport (df : Table) (c : FilterCriteria) : String × String :=
  (download_filename, bom ++ to_csv (applyFilters df c))

/-- Python whitespace (the characters `str.strip` removes). -/
def isWs (ch : Char) : Bool :=
  ch = ' ' || ch = '\t' || ch = '\n' || ch = '\r' || ch = Char.ofNat 11 || ch = Char.ofNat 12

/-- First-occurrence deduplication, as `Series.unique` returns values. -/
def dedupFirst : List String → List String
  | [] => []
  | x :: xs => x :: (dedupFirst xs).filter (fun y => decide (y ≠ x))

/-- Line 110: `sorted([x for x in df[col].dropna().unique() if
str(x).strip()])` — the distinct non-null values whose text is not all
whitespace.  (The `sorted` only orders the widget; it is dropped here and
no property below depends on the order.) -/
def opties (df : Table) (col : String) : List String :=
  (dedupFirst (df.rows.filterMap (fun r => lookupCell df.cols r col))).filter
    (fun v => v.data.any (fun ch => !(isWs ch)))

/-- Line 106: the fixed candidate list for yes/no filters. -/
def yn_cols : List String :=
  ["Any_mandatory_MF_LF_filing", "MF_filing_req", "LF_filing_req"]

/-- Lines 108-113: a multiselect widget is created for `col` exactly when
`col` is one of `yn_cols`, is a column of the table, and `opties` is
non-empty. -/
def offeredFilterCols (df : Table) : List String :=
  yn_cols.filter (fun col => decide (col ∈ df.cols) && !(opties df col).isEmpty)

/-- Rows of `gef` whose `Any_mandatory_MF_LF_filing` cell case-insensitively
contains `Yes` — `str.contains('Yes', case=False, na=False)`, a literal
pattern, so embedded as a lowered regex search. -/
def containsYes (c : Cell) : Bool :=
  match c with
  | none => false
  | some s => regexSearch (lowerStr "Yes") (lowerStr s)

/-- Line 147: `mean()` of the boolean mask times 100. -/
def mandatory_pct (gef : Table) : ℚ :=
  (((gef.rows.filter (fun r => containsYes (lookupCell gef.cols r "Any_mandatory_MF_LF_filing"))).length : ℚ)
      / (gef.rows.length : ℚ)) * 100

/-- Lines 146-150: the metric is the percentage when the filtered table is
non-empty and the indicator column exists, and the literal `N/A` (here
`none`) otherwise.  (`DataFrame.empty` is true when either axis has length
zero; when the indicator column exists the column axis is non-empty, so the
condition reduces to the row count.) -/
def mandatoryMetric (gef : Table) : Option ℚ :=
  if gef.rows.length ≠ 0 ∧ "Any_mandatory_MF_LF_filing" ∈ gef.cols then
    some (mandatory_pct gef)
  else none

/-- First value bound to a key in a parsed JSON record. -/
def lookupKey : List (String × String) → String → Option String
  | [], _ => none
  | (k, v) :: rest, key => if k = key then some v else lookupKey rest key

/-- Lines 63-70: the fixed label-to-identifier mapping. -/
def column_mapping : List (String × String) :=
  [("Any mandatory MF/LF filing?", "Any_mandatory_MF_LF_filing"),
   ("MF deadline", "MF_deadline"),
   ("MF filing req.?", "MF_filing_req"),
   ("MF threshold*", "MF_threshold"),
   ("LF deadline", "LF_deadline"),
   ("LF filing req.?", "LF_filing_req"),
   ("LF threshold*", "LF_threshold"),
   ("CbCr notification deadline", "CbCr_notification_deadline"),
   ("CbCr filing deadline", "CbCr_filing_deadline"),
   ("CbCr threshold", "CbCr_threshold"),
   ("Local TP reqs.", "Local_TP_reqs"),
   ("Local TP reqs. deadline", "Local_TP_reqs_deadline"),
   ("Other", "Other")]

/-- Keys of one record appended to an accumulator in first-appearance
order. -/
def addKeys (acc : List String) (r : List (String × String)) : List String :=
  r.foldl (fun a p => if p.1 ∈ a then a else a ++ [p.1]) acc

/-- Column order `pd.DataFrame(rows)` derives from a list of dicts: union
of the keys in first-appearance order. -/
def recKeys (recs : List (List (String × String))) : List String :=
  recs.foldl addKeys []

/-- `pd.DataFrame(rows)`: one column per discovered key, a key absent from
a record giving NaN for that row. -/
def buildDataFrame (recs : List (List (String × String))) : Table :=
  { cols := recKeys recs,
    rows := recs.map (fun r => (recKeys recs).map (fun k => lookupKey r k)) }

/-- `rename(columns=column_mapping)` on one name: mapped names change,
others stay. -/
def renameCol (c : String) : String := (lookupKey column_mapping c).getD c

/-- Line 78: `pd.DataFrame(rows).rename(columns=column_mapping)` (rename
part). -/
def renameTable (t : Table) : Table :=
  { cols := t.cols.map renameCol, rows := t.rows }

/-- Lines 80-82: append, for each mapping target absent from the columns, a
column holding `"N/A"` in every row. -/
def fillMissing (t : Table) : Table :=
  column_mapping.foldl
    (fun acc p =>
      if p.2 ∈ acc.cols then acc
      else { cols := acc.cols ++ [p.2], rows := acc.rows.map (fun r => r ++ [some "N/A"]) })
    t

/-- Lines 43-86, `load_data`.  `csv` is `none` when the CSV file is absent,
`some none` when it exists but `pd.read_csv` raises, `some (some t)` when
it parses to `t`.  `jsonl` is `none` when the JSON-lines file is absent and
otherwise the file's lines, each `none` when `json.loads` raises (the
`except: continue`) and `some record` when it parses.  The sidebar notices
are side effects the return value never depends on. -/
def load_data (csv : Option (Option Table))
    (jsonl : Option (List (Option (List (String × String))))) : Table :=
  match csv with
  | some (some t) => t
  | _ =>
    match jsonl with
    | some lines =>
      let recs := lines.filterMap id
      if recs.isEmpty then Table.mk [] []
      else fillMissing (renameTable (buildDataFrame recs))
    | none => Table.mk [] []

/-- Outcome of the top of the script: `st.stop()` on an empty table
(lines 90-92), otherwise the page renders with the loaded table. -/
inductive AppOutcome
  | halted
  | rendered (df : Table)
  deriving Repr, DecidableEq

/-- Lines 88-92: load, then halt when `df.empty` (either axis of length
zero). -/
def runApp (csv : Option (Option Table))
    (jsonl : Option (List (Option (List (String × String))))) : AppOutcome :=
  let df := load_data csv jsonl
  if df.rows.isEmpty || df.cols.isEmpty then AppOutcome.halted
  else AppOutcome.rendered df

/-- One-row table used to instantiate the row-filter properties. -/
def wTable1 : Table := ⟨["Country"], [[some "NL"]]⟩

/-- Criteria with an empty country selection and everything else inactive. -/
def wCrit1 : FilterCriteria := ⟨[], "", [], []⟩

/-- Two-column table used for the export properties. -/
def projTable : Table := ⟨["Country", "Other"], [[some "NL", some "x"]]⟩

/-- Criteria projecting to the single visible column `Country`. -/
def projCrit : FilterCriteria := ⟨["NL"], "", [], ["Country"]⟩

/-- Row whose only value has no literal dot in it. -/
def dotTable : Table := ⟨["Country"], [[some "abc"]]⟩

/-- Row holding the value `OECD Guidelines Apply` of the search scenario. -/
def oecdTable : Table := ⟨["Country", "TPLaw"], [[some "NL", some "OECD Guidelines Apply"]]⟩

/-- Table in which `MF_filing_req` has exactly one distinct non-blank
value. -/
def cardTable : Table := ⟨["Country", "MF_filing_req"], [[some "NL", some "Yes"]]⟩

/-- The three-country table of the metric scenario. -/
def scenarioT : Table :=
  ⟨["Country", "Any_mandatory_MF_LF_filing"],
   [[some "NL", some "Yes"], [some "DE", some "No"], [some "FR", some "No"]]⟩

/-- Country selection `NL`, `FR` of the metric scenario. -/
def scenarioC : FilterCriteria := ⟨["NL", "FR"], "", [], []⟩

/-- Country selection matching no row at all. -/
def emptySelCrit : FilterCriteria := ⟨["XX"], "", [], []⟩

/-- One-row one-column table whose value contains `Yes`. -/
def wMetricT : Table := ⟨["Any_mandatory_MF_LF_filing"], [[some "Yes"]]⟩

/-- The filtered table of the metric scenario (countries `NL`, `FR`). -/
def scenarioFiltered : Table :=
  ⟨["Country", "Any_mandatory_MF_LF_filing"],
   [[some "NL", some "Yes"], [some "FR", some "No"]]⟩

/-- Row-level form of the country filter: an empty selection passes every
row, a non-empty one requires membership of the `Country` cell. -/
def rowCountryOk (cols : List String) (sel : List String) (r : List Cell) : Bool :=
  sel.isEmpty || cellIn (lookupCell cols r "Country") sel

/-- Columns the JSON-lines fallback derives from the records themselves:
the keys in first-appearance order, remapped through the dictionary. -/
def jsonlBaseCols (recs : List (List (String × String))) : List String :=
  (recKeys recs).map renameCol

/-- Mapping identifiers appearing in no record: these get appended and
filled with `"N/A"`. -/
def jsonlPadCols (recs : List (List (String × String))) : List String :=
  (column_mapping.map Prod.snd).filter (fun x => decide (¬ x ∈ jsonlBaseCols recs))

/-- A JSON-lines file with a single record whose key is not in the
mapping. -/
def jsonLines1 : List (Option (List (String × String))) := [some [("Country", "NL")]]

/-- The JSON-lines file of the spec scenario: one record, one mapped key. -/
def jsonLines2 : List (Option (List (String × String))) := [some [("MF deadline", "12 months")]]

/-- Two records: a mapped key present in the first record only. -/
def jsonLines3 : List (Option (List (String × String))) :=
  [some [("MF deadline", "12 months")], some [("Country", "NL")]]

/-! ## Stage characterizations of the filtering block -/

/-- The country stage keeps the columns and filters rows by
`rowCountryOk`. -/
theorem countryFilter_spec (t : Table) (sel : List String) :
    (countryFilter t sel).cols = t.cols ∧
    (countryFilter t sel).rows = t.rows.filter (rowCountryOk t.cols sel) := by
  unfold countryFilter rowCountryOk
  by_cases h : sel.isEmpty <;> simp [h]

/-- The free-text stage keeps the columns and filters rows by
`rowTextOk`. -/
theorem textFilter_spec (t : Table) (term : String) :
    (textFilter t term).cols = t.cols ∧
    (textFilter t term).rows = t.rows.filter (rowTextOk term) := by
  unfold textFilter rowTextOk
  by_cases h : term = "" <;> simp [h]

/-- One yes/no step keeps the columns and filters rows by its own
membership test, an empty choice list passing everything. -/
theorem ynFilterStep_spec (t : Table) (col : String) (keuzes : List String) :
    (ynFilterStep t col keuzes).cols = t.cols ∧
    (ynFilterStep t col keuzes).rows =
      t.rows.filter (fun r => keuzes.isEmpty || cellIn (lookupCell t.cols r col) keuzes) := by
  unfold ynFilterStep
  by_cases h : keuzes.isEmpty <;> simp [h]

/-- The yes/no loop keeps the columns and filters rows by the conjunction
`rowYnOk`. -/
theorem ynFilter_spec (yn : List (String × List String)) (t : Table) :
    (ynFilter t yn).cols = t.cols ∧
    (ynFilter t yn).rows = t.rows.filter (rowYnOk t.cols yn) := by
  induction yn generalizing t with
  | nil =>
    exact ⟨rfl, (List.filter_eq_self.mpr (fun a _ => by simp [rowYnOk])).symm⟩
  | cons p rest ih =>
    have hstep := ynFilterStep_spec t p.1 p.2
    have hrest := ih (ynFilterStep t p.1 p.2)
    rw [ynFilter, List.foldl_cons] at *
    refine ⟨by rw [hrest.1, hstep.1], ?_⟩
    rw [hrest.2, hstep.1, hstep.2, List.filter_filter]
    apply List.filter_congr
    intro r _
    simp only [rowYnOk, List.all_cons]
    cases h1 : (p.2.isEmpty || cellIn (lookupCell t.cols r p.1) p.2) <;>
      cases h2 : rowYnOk t.cols rest r <;>
        simp_all [rowYnOk]

/-- The whole block keeps the columns and filters rows by the conjunction
of the three stage predicates. -/
theorem applyFilters_spec (t : Table) (c : FilterCriteria) :
    (applyFilters t c).cols = t.cols ∧
    (applyFilters t c).rows = t.rows.filter (fun r =>
      rowCountryOk t.cols c.countries r && rowTextOk c.zoekterm r &&
        rowYnOk t.cols c.actieveYn r) := by
  have hc := countryFilter_spec t c.countries
  have ht := textFilter_spec (countryFilter t c.countries) c.zoekterm
  have hy := ynFilter_spec c.actieveYn (textFilter (countryFilter t c.countries) c.zoekterm)
  unfold applyFilters
  refine ⟨by rw [hy.1, ht.1, hc.1], ?_⟩
  rw [hy.2, ht.1, hc.1, ht.2, hc.2, List.filter_filter, List.filter_filter]
  apply List.filter_congr
  intro r _
  cases h1 : rowCountryOk t.cols c.countries r <;>
    cases h2 : rowTextOk c.zoekterm r <;>
      cases h3 : rowYnOk t.cols c.actieveYn r <;> simp [h1, h2, h3]

/-! ## The regex matcher on metacharacter-free patterns is substring
search -/

/-- Lower-casing never creates a metacharacter. -/
theorem plain_lowerChar (c : Char) (h : plainChar c = true) :
    plainChar (lowerChar c) = true := by
  unfold lowerChar
  split <;> first | decide | exact h

/-- Lower-casing a metacharacter-free string stays metacharacter-free. -/
theorem plain_lowerStr (s : String) (h : plainString s) :
    plainString (lowerStr s) := by
  intro ch hch
  have hmem : ch ∈ s.data.map lowerChar := hch
  obtain ⟨c, hc, rfl⟩ := List.mem_map.mp hmem
  exact plain_lowerChar c (h c hc)

/-- A metacharacter-free pattern parses to its own literal tokens. -/
theorem parse_plain (l : List Char) (h : ∀ c ∈ l, plainChar c = true) :
    parsePat l = some (l.map RTok.lit) := by
  induction l with
  | nil => rfl
  | cons c cs ih =>
    have hc := h c (List.mem_cons_self c cs)
    have hnm : metaChars.contains c = false := by
      revert hc; unfold plainChar; cases metaChars.contains c <;> simp
    have hdot : ¬ (c = '.') := by
      intro he
      rw [he] at hnm
      exact absurd hnm (by decide)
    rw [parsePat, if_neg hdot, if_neg (by rw [hnm]; exact Bool.false_ne_true),
      ih (fun x hx => h x (List.mem_cons_of_mem _ hx))]
    rfl

/-- Matching literal tokens at the head is the prefix test. -/
theorem matchHere_lit (pat : List Char) (s : List Char) :
    matchHere (pat.map RTok.lit) s = startsWithL pat s := by
  induction pat generalizing s with
  | nil => cases s <;> rfl
  | cons c cs ih =>
    cases s with
    | nil => rfl
    | cons h hs => simp [matchHere, startsWithL, tokM, ih]

/-- Searching literal tokens is the substring test. -/
theorem searchPat_lit (pat : List Char) (s : List Char) :
    searchPat (pat.map RTok.lit) s = isSubListOf pat s := by
  induction s with
  | nil => cases pat <;> rfl
  | cons c cs ih => simp [searchPat, isSubListOf, matchHere_lit, ih]

/-- On metacharacter-free patterns, `str.contains` is exactly the
substring test. -/
theorem regexSearch_plain (pat s : String) (h : plainString pat) :
    regexSearch pat s = isSubListOf pat.data s.data := by
  unfold regexSearch
  rw [parse_plain pat.data h]
  exact searchPat_lit pat.data s.data

/-! ## The missing-column fill of the JSON-lines loader -/

/-- Folding the fill step over any mapping list with distinct targets
appends exactly the absent targets, each filled with `"N/A"` in every
row. -/
theorem fillFold_spec (ms : List (String × String)) (t : Table)
    (hnd : (ms.map Prod.snd).Nodup) :
    (ms.foldl (fun acc p =>
        if p.2 ∈ acc.cols then acc
        else { cols := acc.cols ++ [p.2], rows := acc.rows.map (fun r => r ++ [some "N/A"]) }) t).cols
      = t.cols ++ (ms.map Prod.snd).filter (fun x => decide (¬ x ∈ t.cols)) ∧
    (ms.foldl (fun acc p =>
        if p.2 ∈ acc.cols then acc
        else { cols := acc.cols ++ [p.2], rows := acc.rows.map (fun r => r ++ [some "N/A"]) }) t).rows
      = t.rows.map (fun r =>
          r ++ ((ms.map Prod.snd).filter (fun x => decide (¬ x ∈ t.cols))).map
            (fun _ => (some "N/A" : Cell))) := by
  induction ms generalizing t with
  | nil => simp
  | cons p rest ih =>
    rw [List.map_cons] at hnd
    obtain ⟨hp, hrest⟩ := List.nodup_cons.mp hnd
    rw [List.foldl_cons]
    by_cases hmem : p.2 ∈ t.cols
    · rw [if_pos hmem]
      obtain ⟨ihc, ihr⟩ := ih t hrest
      refine ⟨?_, ?_⟩
      · rw [ihc, List.map_cons, List.filter_cons]
        simp [hmem]
      · rw [ihr, List.map_cons, List.filter_cons]
        simp [hmem]
    · rw [if_neg hmem]
      obtain ⟨ihc, ihr⟩ :=
        ih (Table.mk (t.cols ++ [p.2]) (t.rows.map (fun r => r ++ [some "N/A"]))) hrest
      have hfilt : (rest.map Prod.snd).filter (fun x => decide (¬ x ∈ t.cols ++ [p.2]))
          = (rest.map Prod.snd).filter (fun x => decide (¬ x ∈ t.cols)) := by
        apply List.filter_congr
        intro x hx
        have hxp : ¬ (x = p.2) := fun he => hp (he ▸ hx)
        simp [List.mem_append, hxp]
      refine ⟨?_, ?_⟩
      · rw [ihc] at *
        simp only [hfilt]
        rw [List.map_cons, List.filter_cons]
        simp [hmem, List.append_assoc]
      · rw [ihr] at *
        simp only [hfilt]
        rw [List.map_cons, List.filter_cons]
        simp only [List.map_map]
        simp [hmem, Function.comp, List.append_assoc]

/-! ## Claims -/

/-- C1, counterexample: with the one-row table `wTable1` and criteria whose
country-selection set is empty (and no other criteria active), the filtered
result still has one row, not zero — the code skips the country filter when
the selection list is empty. -/
theorem country_empty_cex : (applyFilters wTable1 wCrit1).rows.length ≠ 0 := by
  decide

/-- C1, amended: if the country-selection set is empty, the country filter
is a no-op — the filtered result keeps the original columns and exactly the
rows passing the free-text and categorical predicates (it is not the empty
table). -/
theorem country_empty_is_noop (T : Table) (c : FilterCriteria)
    (h : c.countries = []) :
    (applyFilters T c).cols = T.cols ∧
    (applyFilters T c).rows = T.rows.filter (fun r =>
      rowTextOk c.zoekterm r && rowYnOk T.cols c.actieveYn r) := by
  obtain ⟨h1, h2⟩ := applyFilters_spec T c
  refine ⟨h1, ?_⟩
  rw [h2]
  apply List.filter_congr
  intro r _
  simp [rowCountryOk, h]

/-- C1, witness: the amended statement at the concrete table `wTable1`. -/
theorem country_empty_is_noop_witness :
    (applyFilters wTable1 wCrit1).cols = wTable1.cols ∧
    (applyFilters wTable1 wCrit1).rows = wTable1.rows.filter (fun r =>
      rowTextOk wCrit1.zoekterm r && rowYnOk wTable1.cols wCrit1.actieveYn r) :=
  country_empty_is_noop wTable1 wCrit1 rfl

/-- C9: the filtering block never mutates the source table — after the
block, `df` is the original table, and the filtered table's rows are a
sublist of the original rows (cells untouched, rows only dropped). -/
theorem filtering_never_mutates (T : Table) (c : FilterCriteria) :
    (runFilterBlock T c).df = T ∧
    List.Sublist (runFilterBlock T c).gefilterd.rows T.rows ∧
    (runFilterBlock T c).gefilterd.cols = T.cols := by
  refine ⟨rfl, ?_, (applyFilters_spec T c).1⟩
  have h2 := (applyFilters_spec T c).2
  show List.Sublist (applyFilters T c).rows T.rows
  rw [h2]
  exact List.filter_sublist T.rows

/-- C7: an empty visible-column selection is a no-op — the displayed table
is the filtered table itself, and its columns are the source table's
columns in order. -/
theorem empty_column_selection_shows_all (T : Table) (c : FilterCriteria)
    (h : c.zichtbareKolommen = []) :
    displayTable (applyFilters T c) c.zichtbareKolommen = applyFilters T c ∧
    (displayTable (applyFilters T c) c.zichtbareKolommen).cols = T.cols := by
  have hd : displayTable (applyFilters T c) c.zichtbareKolommen = applyFilters T c := by
    rw [h]
    rfl
  exact ⟨hd, by rw [hd]; exact (applyFilters_spec T c).1⟩

/-- C7, witness: the no-op projection at the concrete table `wTable1`. -/
theorem empty_column_selection_shows_all_witness :
    displayTable (applyFilters wTable1 wCrit1) wCrit1.zichtbareKolommen = applyFilters wTable1 wCrit1 ∧
    (displayTable (applyFilters wTable1 wCrit1) wCrit1.zichtbareKolommen).cols = wTable1.cols :=
  empty_column_selection_shows_all wTable1 wCrit1 rfl

/-- C5: the categorical filters keep the columns, keep exactly the rows
whose cell is a member of each configured non-empty choice set (conjunction
over the configured filters, an empty choice set passing every row), and a
filter with an empty choice set is literally equivalent to the filter being
absent. -/
theorem categorical_filters_conjunction (T : Table)
    (yn : List (String × List String)) :
    (ynFilter T yn).cols = T.cols ∧
    (ynFilter T yn).rows = T.rows.filter (rowYnOk T.cols yn) ∧
    ∀ col : String, ynFilter T ((col, []) :: yn) = ynFilter T yn := by
  obtain ⟨h1, h2⟩ := ynFilter_spec yn T
  exact ⟨h1, h2, fun col => rfl⟩

/-- C3, counterexample: in `cardTable` the column `MF_filing_req` has
exactly one distinct non-blank value, yet it is offered as a categorical
filter — the code has no lower or upper cardinality bound. -/
theorem yn_discovery_cardinality_cex :
    "MF_filing_req" ∈ offeredFilterCols cardTable ∧
    (opties cardTable "MF_filing_req").length = 1 := by
  decide

/-- C3, amended: a column is offered as a categorical filter exactly when
it is one of the three fixed candidates (`Any_mandatory_MF_LF_filing`,
`MF_filing_req`, `LF_filing_req`), is present in the table, and has at
least one distinct non-blank value — there is no cardinality range. -/
theorem yn_discovery_fixed_list (df : Table) (col : String) :
    col ∈ offeredFilterCols df ↔
      col ∈ yn_cols ∧ col ∈ df.cols ∧ opties df col ≠ [] := by
  simp [offeredFilterCols, List.mem_filter, List.isEmpty_iff, and_assoc]

/-- C4, counterexample: with search term `"."` the code keeps the row of
`dotTable` (the `.` is a regex wildcard for `str.contains`), while pure
substring semantics keeps nothing — no cell contains a literal dot. -/
theorem free_text_regex_cex :
    (textFilter dotTable ".").rows = dotTable.rows ∧
    dotTable.rows.filter (fun r => r.any (fun cell =>
      isSubListOf (lowerStr ".").data (lowerStr (cellText cell)).data)) = [] := by
  decide

/-- C4, amended: for every non-blank search term free of regex
metacharacters, the filter keeps the columns and keeps exactly the rows in
which at least one cell, lower-cased (missing values as the empty string),
contains the lower-cased term as a substring; a blank term is a no-op. -/
theorem free_text_literal_substring (T : Table) (zoekterm : String)
    (h1 : zoekterm ≠ "") (h2 : plainString zoekterm) :
    (textFilter T zoekterm).cols = T.cols ∧
    (textFilter T zoekterm).rows = T.rows.filter (fun r =>
      r.any (fun cell =>
        isSubListOf (lowerStr zoekterm).data (lowerStr (cellText cell)).data)) ∧
    textFilter T "" = T := by
  obtain ⟨ha, hb⟩ := textFilter_spec T zoekterm
  refine ⟨ha, ?_, rfl⟩
  rw [hb]
  apply List.filter_congr
  intro r _
  rw [rowTextOk, if_neg h1]
  have hplain := plain_lowerStr zoekterm h2
  have hpt : ∀ cell : Cell,
      regexSearch (lowerStr zoekterm) (lowerStr (cellText cell))
        = isSubListOf (lowerStr zoekterm).data (lowerStr (cellText cell)).data :=
    fun cell => regexSearch_plain (lowerStr zoekterm) (lowerStr (cellText cell)) hplain
  simp only [hpt]

/-- C4, witness: the scenario term `oecd` against the row holding
`OECD Guidelines Apply`. -/
theorem free_text_literal_substring_witness :
    (textFilter oecdTable "oecd").cols = oecdTable.cols ∧
    (textFilter oecdTable "oecd").rows = oecdTable.rows.filter (fun r =>
      r.any (fun cell =>
        isSubListOf (lowerStr "oecd").data (lowerStr (cellText cell)).data)) ∧
    textFilter oecdTable "" = oecdTable :=
  free_text_literal_substring oecdTable "oecd" (by decide) (by decide)

/-- C2, counterexample: with `projTable` and a non-empty visible-column
selection of just `Country`, the download payload differs from the CSV of
the column-projected view — the export is built from the unprojected
filtered table. -/
theorem export_ignores_projection_cex :
    (dataTabExport projTable projCrit).2 ≠
      bom ++ to_csv (displayTable (applyFilters projTable projCrit)
        projCrit.zichtbareKolommen) := by
  decide

/-- C2, amended: the export artifact carries the fixed filename
`tp_core_selection.csv` and a payload that is the byte-order mark followed
by the CSV of the filtered rows under ALL of the source table's columns —
the visible-column projection is not applied to the export. -/
theorem export_unprojected_with_bom (T : Table) (c : FilterCriteria) :
    (dataTabExport T c).1 = "tp_core_selection.csv" ∧
    (dataTabExport T c).2 = bom ++ to_csv (Table.mk T.cols (applyFilters T c).rows) := by
  refine ⟨rfl, ?_⟩
  have h1 : (applyFilters T c).cols = T.cols := (applyFilters_spec T c).1
  rw [← h1]
  rfl

/-- C10: with no file at any candidate path, the loader returns the empty
table (zero rows, zero columns) and the script halts at the empty-table
guard instead of rendering. -/
theorem no_source_halts :
    load_data none none = Table.mk [] [] ∧
    (load_data none none).rows.length = 0 ∧
    runApp none none = AppOutcome.halted :=
  ⟨rfl, rfl, rfl⟩

/-- C8, counterexample: filtering `scenarioT` down to zero rows (country
selection `XX`) leaves the indicator column present, yet the metric is the
`N/A` value (`none`), not a percentage — the code also shows `N/A` whenever
the filtered table is empty. -/
theorem mandatory_metric_empty_cex :
    "Any_mandatory_MF_LF_filing" ∈ (applyFilters scenarioT emptySelCrit).cols ∧
    mandatoryMetric (applyFilters scenarioT emptySelCrit) = none := by
  constructor
  · decide
  · have hA : applyFilters scenarioT emptySelCrit =
        Table.mk ["Country", "Any_mandatory_MF_LF_filing"] [] := by decide
    rw [hA]
    rfl

/-- C8, amended: the metric is the percentage of filtered rows whose
indicator value case-insensitively contains `Yes` whenever the indicator
column is present AND the filtered table has at least one row; it is the
explicit `N/A` value when the column is absent OR the filtered table is
empty; and the three-country scenario filtered to `NL`, `FR` yields 50. -/
theorem mandatory_metric_characterization (F : Table) :
    ("Any_mandatory_MF_LF_filing" ∈ F.cols → F.rows ≠ [] →
      mandatoryMetric F = some (((F.rows.filter (fun r =>
        containsYes (lookupCell F.cols r "Any_mandatory_MF_LF_filing"))).length : ℚ) * 100
          / (F.rows.length : ℚ))) ∧
    (¬ "Any_mandatory_MF_LF_filing" ∈ F.cols → mandatoryMetric F = none) ∧
    (F.rows = [] → mandatoryMetric F = none) ∧
    mandatoryMetric (applyFilters scenarioT scenarioC) = some 50 := by
  refine ⟨?_, ?_, ?_, ?_⟩
  · intro hm hn
    have hlen : F.rows.length ≠ 0 := fun h0 => hn (List.length_eq_zero.mp h0)
    unfold mandatoryMetric
    rw [if_pos ⟨hlen, hm⟩, mandatory_pct, div_mul_eq_mul_div]
  · intro hm
    unfold mandatoryMetric
    exact if_neg (fun hcond => hm hcond.2)
  · intro hr
    unfold mandatoryMetric
    exact if_neg (fun hcond => hcond.1 (by rw [hr]; rfl))
  · have hA : applyFilters scenarioT scenarioC = scenarioFiltered := by decide
    rw [hA]
    unfold mandatoryMetric
    rw [if_pos ⟨by decide, by decide⟩, mandatory_pct]
    have hf : (scenarioFiltered.rows.filter (fun r =>
        containsYes (lookupCell scenarioFiltered.cols r "Any_mandatory_MF_LF_filing"))).length
          = 1 := by decide
    have hl : scenarioFiltered.rows.length = 2 := by decide
    rw [hf, hl]
    norm_num

/-- C8, witness: the percentage clause applied at the one-row table
`wMetricT`. -/
theorem mandatory_metric_characterization_witness :
    mandatoryMetric wMetricT = some (((wMetricT.rows.filter (fun r =>
      containsYes (lookupCell wMetricT.cols r "Any_mandatory_MF_LF_filing"))).length : ℚ) * 100
        / (wMetricT.rows.length : ℚ)) :=
  (mandatory_metric_characterization wMetricT).1 (by decide) (by decide)

/-- The JSON-lines build pipeline, characterized on the parsed records:
columns are the remapped record keys followed by the absent mapping
targets, and each row is the record's values along the remapped keys
followed by `"N/A"` for each appended target. -/
theorem jsonlTable_spec (recs : List (List (String × String))) :
    (fillMissing (renameTable (buildDataFrame recs))).cols =
      jsonlBaseCols recs ++ jsonlPadCols recs ∧
    (fillMissing (renameTable (buildDataFrame recs))).rows = recs.map (fun r =>
      (recKeys recs).map (fun k => lookupKey r k)
        ++ (jsonlPadCols recs).map (fun _ => (some "N/A" : Cell))) := by
  obtain ⟨hc, hr⟩ := fillFold_spec column_mapping (renameTable (buildDataFrame recs)) (by decide)
  constructor
  · exact hc
  · rw [show (fillMissing (renameTable (buildDataFrame recs))).rows =
        (recs.map (fun r => (recKeys recs).map (fun k => lookupKey r k))).map
          (fun r => r ++ (jsonlPadCols recs).map (fun _ => (some "N/A" : Cell))) from hr]
    rw [List.map_map]
    rfl

/-- C6, counterexample: a record key outside the mapping (here `Country`)
becomes a column of the fallback table, so the columns are not exactly the
mapping's normalized identifiers; and a mapped key present in one record
but missing from another yields a missing value (NaN) for the latter row,
not `"N/A"`. -/
theorem jsonl_extra_column_cex :
    "Country" ∈ (load_data none (some jsonLines1)).cols ∧
    ¬ "Country" ∈ column_mapping.map Prod.snd ∧
    lookupCell (load_data none (some jsonLines3)).cols
      ((load_data none (some jsonLines3)).rows.getD 1 []) "MF_deadline" = none := by
  decide

/-- C6, amended: when only the JSON-lines source is present (the CSV absent
or unparseable) and at least one line parses, the loaded table's columns
are the record keys in first-appearance order remapped through the fixed
dictionary, followed by the mapping identifiers appearing in no record;
each row holds the record's values along those keys (a key absent from that
record giving a missing value) followed by `"N/A"` in each appended
column; lines that fail to parse are skipped without affecting the rest. -/
theorem jsonl_fallback_characterization
    (lines : List (Option (List (String × String))))
    (h : lines.filterMap id ≠ []) :
    (load_data none (some lines)).cols =
      jsonlBaseCols (lines.filterMap id) ++ jsonlPadCols (lines.filterMap id) ∧
    (load_data none (some lines)).rows = (lines.filterMap id).map (fun r =>
      (recKeys (lines.filterMap id)).map (fun k => lookupKey r k)
        ++ (jsonlPadCols (lines.filterMap id)).map (fun _ => (some "N/A" : Cell))) ∧
    load_data none (some (none :: lines)) = load_data none (some lines) ∧
    load_data (some none) (some lines) = load_data none (some lines) := by
  have hne : ¬ ((lines.filterMap id).isEmpty = true) :=
    fun hb => h (List.isEmpty_iff.mp hb)
  have hred : load_data none (some lines)
      = fillMissing (renameTable (buildDataFrame (lines.filterMap id))) := by
    show (if (lines.filterMap id).isEmpty then Table.mk [] []
        else fillMissing (renameTable (buildDataFrame (lines.filterMap id)))) = _
    rw [if_neg hne]
  obtain ⟨hc, hr⟩ := jsonlTable_spec (lines.filterMap id)
  have h3 : load_data none (some (none :: lines)) = load_data none (some lines) := by
    show (if ((none :: lines).filterMap id).isEmpty then Table.mk [] []
        else fillMissing (renameTable (buildDataFrame ((none :: lines).filterMap id))))
      = (if (lines.filterMap id).isEmpty then Table.mk [] []
        else fillMissing (renameTable (buildDataFrame (lines.filterMap id))))
    rw [show (none :: lines).filterMap id = lines.filterMap id from
      List.filterMap_cons_none rfl]
  exact ⟨by rw [hred]; exact hc, by rw [hred]; exact hr, h3, rfl⟩

/-- C6, witness: the spec scenario record with the single mapped key
`MF deadline`. -/
theorem jsonl_fallback_characterization_witness :
    (load_data none (some jsonLines2)).cols =
      jsonlBaseCols (jsonLines2.filterMap id) ++ jsonlPadCols (jsonLines2.filterMap id) ∧
    (load_data none (some jsonLines2)).rows = (jsonLines2.filterMap id).map (fun r =>
      (recKeys (jsonLines2.filterMap id)).map (fun k => lookupKey r k)
        ++ (jsonlPadCols (jsonLines2.filterMap id)).map (fun _ => (some "N/A" : Cell))) ∧
    load_data none (some (none :: jsonLines2)) = load_data none (some jsonLines2) ∧
    load_data (some none) (some jsonLines2) = load_data none (some jsonLines2) :=
  jsonl_fallback_characterization jsonLines2 (by decide)

end TPDash
